import Mathlib

/-
Verification of the PortalDart/Solana trading bot sources.

The repository holds three script variants:
  * src/bot.js                      — poll-based bot (rugChecks, processPool, monitorLoop);
  * src/unnamed/part_000 (top)      — poll-based v2 bot (performRugChecks, processNewPool,
                                      checkAndSellPositions);
  * src/unnamed/part_000 (bottom)   — log-subscription bot (swapSell, monitorPosition,
                                      detectNewPools).

JavaScript numbers are modelled as rationals (ℚ); JavaScript `null`/absent values as
`Option`; a thrown exception in an awaited data fetch as the corresponding `Option`
input being `none`.  A JS object / `Map` keyed by strings is modelled as a function
`String → Option α`.
-/

namespace PortalSolana

/-! ## Risk evaluators -/

/-- Result of `getMint`: mint metadata, as consumed by both rug-check functions. -/
structure MintInfo where
  mintAuthority : Option String
  freezeAuthority : Option String
  supply : ℚ
  decimals : ℕ
deriving DecidableEq

/-- The distinct `reason` strings produced by the two rug-check functions.
`rugChecks` (src/bot.js) uses `mintAuthorityPresent`, `noTokenAccounts`,
`concentrated_holders`, `weird_mint`, `error`; `performRugChecks`
(src/unnamed/part_000) uses `mintAuthorityPresent`, `zero_supply`,
`excessive_decimals`, `no_token_accounts`, `concentrated_holders`, `check_failed`. -/
inductive RugReason where
  | mintAuthorityPresent
  | noTokenAccounts
  | concentrated_holders
  | weird_mint
  | error
  | zero_supply
  | excessive_decimals
  | no_token_accounts
  | check_failed
deriving DecidableEq

/-- A rug-check verdict: `safe`, the optional `reason`, and the `topPercent`
metric attached when the concentration check fires (and, in the v2 variant,
also on the safe verdict's `details`). -/
structure RugVerdict where
  safe : Bool
  reason : Option RugReason
  topPercent : Option ℚ
deriving DecidableEq

/-- `rugChecks` from src/bot.js lines 57-99.
`mintInfo = none` models `getMint` throwing, `largest = none` models
`getTokenLargestAccounts` throwing: both land in the catch block which returns
`{ safe: false, reason: 'error' }`.  Order of checks in the source:
mint authority, then top-3 holder concentration (with `topPercent = 100`
when `supply = 0`), then `decimals > 9 || supply === 0`. -/
def rugChecks (mintInfo : Option MintInfo) (largest : Option (List ℚ)) : RugVerdict :=
  match mintInfo with
  | none => ⟨false, some RugReason.error, none⟩
  | some mi =>
    if mi.mintAuthority.isSome then ⟨false, some RugReason.mintAuthorityPresent, none⟩
    else
      match largest with
      | none => ⟨false, some RugReason.error, none⟩
      | some accounts =>
        if accounts = [] then ⟨false, some RugReason.noTokenAccounts, none⟩
        else
          let totalTop := (accounts.take 3).sum
          let topPercent := if mi.supply > 0 then totalTop / mi.supply * 100 else 100
          if topPercent > 50 then ⟨false, some RugReason.concentrated_holders, some topPercent⟩
          else if mi.decimals > 9 ∨ mi.supply = 0 then ⟨false, some RugReason.weird_mint, none⟩
          else ⟨true, none, none⟩

/-- `performRugChecks` from src/unnamed/part_000 lines 69-143.
Order of checks in the source: mint authority (freeze authority only logs a
warning), then `supply === 0`, then `decimals > 18`, then top-5 holder
concentration; the catch block returns `{ safe: false, reason: 'check_failed' }`.
The safe verdict carries `details` including `topPercent`. -/
def performRugChecks (mintInfo : Option MintInfo) (largest : Option (List ℚ)) : RugVerdict :=
  match mintInfo with
  | none => ⟨false, some RugReason.check_failed, none⟩
  | some mi =>
    if mi.mintAuthority.isSome then ⟨false, some RugReason.mintAuthorityPresent, none⟩
    else if mi.supply = 0 then ⟨false, some RugReason.zero_supply, none⟩
    else if mi.decimals > 18 then ⟨false, some RugReason.excessive_decimals, none⟩
    else
      match largest with
      | none => ⟨false, some RugReason.check_failed, none⟩
      | some accounts =>
        if accounts = [] then ⟨false, some RugReason.no_token_accounts, none⟩
        else
          let totalTop := (accounts.take 5).sum
          let topPercent := totalTop / mi.supply * 100
          if topPercent > 70 then ⟨false, some RugReason.concentrated_holders, some topPercent⟩
          else ⟨true, none, some topPercent⟩

example : rugChecks (some ⟨none, none, 1000000, 6⟩) (some [600000, 100, 50]) =
    ⟨false, some RugReason.concentrated_holders, some (600150 / 1000000 * 100)⟩ := by
  simp [rugChecks]; norm_num

example : performRugChecks (some ⟨none, none, 1000000, 6⟩) (some [100, 50]) =
    ⟨true, none, some (150 / 1000000 * 100)⟩ := by
  simp [performRugChecks]; norm_num

/-! ## Pool discovery deduplication -/

/-- The pool-payload fields the two poolId extractions read:
`pool.id || pool.ammId || pool.address || pool.lpMint` (src/bot.js line 174) and
`pool.id || pool.address` (src/unnamed/part_000 line 294). -/
structure PoolShape where
  id : Option String
  ammId : Option String
  address : Option String
  lpMint : Option String
deriving DecidableEq

/-- JS truthiness of a nullable string: `null`/`undefined` and `''` are falsy. -/
def strTruthy : Option String → Bool
  | none => false
  | some s => !(s = "")

/-- JS `a || b` on nullable strings. -/
def jsOrS (a b : Option String) : Option String := if strTruthy a then a else b

/-- `pool.id || pool.ammId || pool.address || pool.lpMint` from src/bot.js `processPool`. -/
def poolIdOfBot (p : PoolShape) : Option String :=
  jsOrS p.id (jsOrS p.ammId (jsOrS p.address p.lpMint))

/-- `pool.id || pool.address` from src/unnamed/part_000 `processNewPool`. -/
def poolIdOfV2 (p : PoolShape) : Option String := jsOrS p.id p.address

/-- The dedup gate shared by `processPool` (src/bot.js lines 172-179) and
`processNewPool` (src/unnamed/part_000 lines 292-297), parameterized by the
poolId extraction: a falsy poolId returns early; an already-seen poolId
returns early; otherwise the poolId is added to `seenPools` and the event is
processed (emitted).  Returns the updated seen-set and whether the event
passed the gate. -/
def dedupStep (idOf : PoolShape → Option String) (seen : List String) (p : PoolShape) :
    List String × Bool :=
  match idOf p with
  | none => (seen, false)
  | some s =>
    if s = "" then (seen, false)
    else if s ∈ seen then (seen, false)
    else (s :: seen, true)

/-- Number of events with poolId `x` that pass the dedup gate while a batch is
processed in order (the `for (const pool of pools)` loop). -/
def emitCountFor (idOf : PoolShape → Option String) (x : String) (seen : List String) :
    List PoolShape → ℕ
  | [] => 0
  | p :: ps =>
    (if (dedupStep idOf seen p).2 = true ∧ idOf p = some x then 1 else 0) +
      emitCountFor idOf x (dedupStep idOf seen p).1 ps

/-- The seen-set after a batch is processed in order. -/
def seenAfter (idOf : PoolShape → Option String) (seen : List String) :
    List PoolShape → List String
  | [] => seen
  | p :: ps => seenAfter idOf (dedupStep idOf seen p).1 ps

/-! ## The log-subscription bot: `monitorPosition`, `swapSell`, `detectNewPools` -/

/-- A position of the log-subscription bot
(src/unnamed/part_000 lines 641-646): `{ buy_price, amount, sold_25, sold_50 }`. -/
structure WsPosition where
  buy_price : ℚ
  amount : ℚ
  sold_25 : Bool
  sold_50 : Bool
deriving DecidableEq

/-- Why a monitor iteration removed the position:
`monitorPosition` only ever removes it in the stop-loss branch. -/
inductive ExitReason where
  | stop_loss
  | target_reached
  | timeout
deriving DecidableEq

/-- Observable outcome of one `monitorPosition` loop iteration:
the position afterwards (`none` = `delete positions[tokenMint]`), whether the
loop `break`s, the exit reason if the position was closed, and the fraction
passed to `swapSell` if one was attempted. -/
structure StepResult where
  pos : Option WsPosition
  broke : Bool
  exitReason : Option ExitReason
  sellAttempt : Option ℚ
deriving DecidableEq

/-- One iteration of `monitorPosition` (src/unnamed/part_000 lines 588-612).
`currentPrice = 0` models `getPrice` returning `0` (price unavailable), which
skips the iteration.  `sellOk` is the value `swapSell` would return (`false`
when the quote or swap fails); the source ignores that value, which is why the
parameter is unused here: `pos.sold_50 = true` / `pos.sold_25 = true` /
`delete positions[tokenMint]` run unconditionally after the `await`. -/
def monitorStep (stopLossPct : ℚ) (pos : WsPosition) (currentPrice : ℚ) (_sellOk : Bool) :
    StepResult :=
  if currentPrice = 0 then
    ⟨some pos, false, none, none⟩
  else if currentPrice / pos.buy_price ≥ 3 ∧ pos.sold_50 = false then
    ⟨some ⟨pos.buy_price, pos.amount, pos.sold_25, true⟩, false, none, some (1/2)⟩
  else if currentPrice / pos.buy_price ≥ 2 ∧ pos.sold_25 = false then
    ⟨some ⟨pos.buy_price, pos.amount, true, pos.sold_50⟩, false, none, some (1/4)⟩
  else if currentPrice / pos.buy_price ≤ 1 - stopLossPct / 100 then
    ⟨none, true, some ExitReason.stop_loss, some 1⟩
  else
    ⟨some pos, false, none, none⟩

/-- JS object / `Map` insertion: `positions[k] = v` / `positions.set(k, v)`.
Overwrites any existing entry for `k`; there is no failure path. -/
def mapSet {α : Type} (m : String → Option α) (k : String) (v : α) : String → Option α :=
  fun y => if y = k then some v else m y

/-- The buy-then-record-then-spawn tail of the `detectNewPools` message handler
(src/unnamed/part_000 lines 637-648).  `buyOk` is `swapBuy`'s result and
`buyPrice` the `getPrice` result.  On success with a positive price the
position is written into `positions` (overwriting any existing entry for the
mint) and `monitorPosition` is invoked; the returned Bool records whether a
monitor task was spawned. -/
def handleNewPool (buyAmountSol : ℚ) (reg : String → Option WsPosition)
    (mint : String) (buyOk : Bool) (buyPrice : ℚ) :
    (String → Option WsPosition) × Bool :=
  if buyOk = true then
    if buyPrice > 0 then
      (mapSet reg mint ⟨buyPrice, buyAmountSol / buyPrice, false, false⟩, true)
    else (reg, false)
  else (reg, false)

/-! ## The poll-based bot's monitor loop (src/bot.js) -/

/-- A position as recorded by `processPool` in src/bot.js line 224:
`{ buyPrice, amount, txSignature, boughtAt }` with `buyPrice` possibly `null`
and `amount` set to `null`. -/
structure BotPosition where
  buyPrice : Option ℚ
  amount : Option ℚ
  boughtAt : ℕ
deriving DecidableEq

/-- JS truthiness of a nullable number: `null` and `0` are falsy. -/
def qTruthy : Option ℚ → Bool
  | none => false
  | some q => !(q = 0)

/-- The position-checking half of one `monitorLoop` tick
(src/bot.js lines 244-262).  The source sets `const currentPrice = null`
(line 247 carries a TODO), then guards the sell on
`pos.buyPrice && currentPrice && currentPrice >= pos.buyPrice * TARGET_MULTIPLIER`;
on a successful sell (`sellOk`) the entry is deleted.  Returns the entries
after the tick and the number of sell swaps attempted. -/
def sellCheckBot (targetMultiplier : ℚ) (sellOk : Bool) :
    List (String × BotPosition) → List (String × BotPosition) × ℕ
  | [] => ([], 0)
  | (mint, pos) :: rest =>
    let currentPrice : Option ℚ := none
    let r := sellCheckBot targetMultiplier sellOk rest
    if (qTruthy pos.buyPrice && qTruthy currentPrice &&
        decide (currentPrice.getD 0 ≥ pos.buyPrice.getD 0 * targetMultiplier)) = true then
      if sellOk = true then (r.1, r.2 + 1) else ((mint, pos) :: r.1, r.2 + 1)
    else ((mint, pos) :: r.1, r.2)

/-! ## Claim C6: mint authority always wins -/

/-- Claim C6: for every mint metadata input with a non-null mint authority, both
risk evaluators return `safe = false` with reason `mintAuthorityPresent`,
regardless of the holder distribution or any other field. -/
theorem mint_authority_always_unsafe (mi : MintInfo) (largest : Option (List ℚ))
    (a : String) (h : mi.mintAuthority = some a) :
    rugChecks (some mi) largest = ⟨false, some RugReason.mintAuthorityPresent, none⟩ ∧
    performRugChecks (some mi) largest = ⟨false, some RugReason.mintAuthorityPresent, none⟩ := by
  constructor <;> simp [rugChecks, performRugChecks, h]

/-- Witness for the mint-authority theorem at a concrete input. -/
theorem mint_authority_always_unsafe_witness :
    (⟨some "A", none, 5, 6⟩ : MintInfo).mintAuthority = some "A" ∧
    (rugChecks (some ⟨some "A", none, 5, 6⟩) none =
        ⟨false, some RugReason.mintAuthorityPresent, none⟩ ∧
      performRugChecks (some ⟨some "A", none, 5, 6⟩) none =
        ⟨false, some RugReason.mintAuthorityPresent, none⟩) :=
  ⟨rfl, mint_authority_always_unsafe ⟨some "A", none, 5, 6⟩ none "A" rfl⟩

/-! ## Claim C7: holder concentration with strict threshold -/

/-- The concentration behaviour of both evaluators: strictly above the
threshold (50 for the top-3 check in src/bot.js, 70 for the top-5 check in
src/unnamed/part_000) the verdict is unsafe `concentrated_holders` with the
computed percentage attached; at exactly the threshold the reason is never
`concentrated_holders`. -/
def concentrationVerdictProp (mi : MintInfo) (accounts : List ℚ) : Prop :=
  ((accounts.take 3).sum / mi.supply * 100 > 50 →
      rugChecks (some mi) (some accounts) =
        ⟨false, some RugReason.concentrated_holders,
          some ((accounts.take 3).sum / mi.supply * 100)⟩) ∧
  ((accounts.take 3).sum / mi.supply * 100 = 50 →
      (rugChecks (some mi) (some accounts)).reason ≠ some RugReason.concentrated_holders) ∧
  ((accounts.take 5).sum / mi.supply * 100 > 70 →
      performRugChecks (some mi) (some accounts) =
        ⟨false, some RugReason.concentrated_holders,
          some ((accounts.take 5).sum / mi.supply * 100)⟩) ∧
  ((accounts.take 5).sum / mi.supply * 100 = 70 →
      (performRugChecks (some mi) (some accounts)).reason ≠ some RugReason.concentrated_holders)

/-- Claim C7: when the earlier checks pass (no mint authority, non-empty holder
list, positive supply, decimals in bound), a top-N share strictly above the
threshold yields `concentrated_holders` with the percentage attached, and at
exactly the threshold the verdict is not unsafe for this reason. -/
theorem concentration_threshold (mi : MintInfo) (accounts : List ℚ)
    (hauth : mi.mintAuthority = none) (hne : accounts ≠ [])
    (hsup : 0 < mi.supply) (hdec : mi.decimals ≤ 18) :
    concentrationVerdictProp mi accounts := by
  have hd18 : ¬ mi.decimals > 18 := by omega
  refine ⟨?_, ?_, ?_, ?_⟩
  · intro hgt
    simp [rugChecks, hauth, hne, hsup, hgt]
  · intro heq
    simp only [rugChecks, hauth, Option.isSome_none, Bool.false_eq_true, if_false,
      if_neg hne, if_pos hsup, heq, lt_self_iff_false, if_false]
    split <;> simp
  · intro hgt
    simp [performRugChecks, hauth, hne, hsup.ne', hd18, hgt]
  · intro heq
    simp only [performRugChecks, hauth, Option.isSome_none, Bool.false_eq_true, if_false,
      if_neg hsup.ne', if_neg hd18, if_neg hne, heq, lt_self_iff_false]
    simp

/-- Witness for the concentration theorem at a concrete input: supply 1000000,
top holders [600000, 200000, 100]. -/
theorem concentration_threshold_witness :
    ((⟨none, none, 1000000, 6⟩ : MintInfo).mintAuthority = none ∧
      ([600000, 200000, 100] : List ℚ) ≠ [] ∧
      (0 : ℚ) < (⟨none, none, 1000000, 6⟩ : MintInfo).supply ∧
      (⟨none, none, 1000000, 6⟩ : MintInfo).decimals ≤ 18) ∧
    concentrationVerdictProp ⟨none, none, 1000000, 6⟩ [600000, 200000, 100] :=
  ⟨⟨rfl, by simp, by norm_num, by norm_num⟩,
    concentration_threshold ⟨none, none, 1000000, 6⟩ [600000, 200000, 100]
      rfl (by simp) (by norm_num) (by norm_num)⟩

/-! ## Claim C5: order of the supply-sanity check -/

/-- Claim C5 counterexample: in src/bot.js, a zero-supply mint (no mint
authority, one holder account) is reported as `concentrated_holders` — the
concentration check runs before the supply-sanity check and treats zero supply
as 100% concentration — not as a supply-sanity failure. -/
theorem zero_supply_reported_as_concentration :
    rugChecks (some ⟨none, none, 0, 5⟩) (some [7]) =
      ⟨false, some RugReason.concentrated_holders, some 100⟩ ∧
    RugReason.concentrated_holders ≠ RugReason.weird_mint ∧
    RugReason.concentrated_holders ≠ RugReason.zero_supply := by
  refine ⟨?_, by decide, by decide⟩
  simp [rugChecks]
  norm_num

/-- Claim C5 as amended: `performRugChecks` (src/unnamed/part_000) does apply
mint authority, then supply sanity (`supply > 0`, `decimals ≤ 18`), then
concentration, short-circuiting, so zero supply / excessive decimals give the
supply-sanity reasons; `rugChecks` (src/bot.js) instead checks concentration
before supply sanity and reports zero supply as `concentrated_holders` at
100%. -/
theorem supply_sanity_short_circuit (mi : MintInfo) (largest : Option (List ℚ))
    (accounts : List ℚ) (hauth : mi.mintAuthority = none) (hne : accounts ≠ []) :
    (mi.supply = 0 →
        performRugChecks (some mi) largest = ⟨false, some RugReason.zero_supply, none⟩) ∧
    (mi.supply ≠ 0 → mi.decimals > 18 →
        performRugChecks (some mi) largest = ⟨false, some RugReason.excessive_decimals, none⟩) ∧
    (mi.supply = 0 →
        rugChecks (some mi) (some accounts) =
          ⟨false, some RugReason.concentrated_holders, some 100⟩) := by
  refine ⟨?_, ?_, ?_⟩
  · intro hs
    simp [performRugChecks, hauth, hs]
  · intro hs hd
    simp [performRugChecks, hauth, hs, hd]
  · intro hs
    simp [rugChecks, hauth, hne, hs]
    norm_num

/-- Witness for the supply-sanity theorem at a concrete input. -/
theorem supply_sanity_short_circuit_witness :
    ((⟨none, none, 0, 5⟩ : MintInfo).mintAuthority = none ∧ ([7] : List ℚ) ≠ []) ∧
    (((⟨none, none, 0, 5⟩ : MintInfo).supply = 0 →
        performRugChecks (some ⟨none, none, 0, 5⟩) none =
          ⟨false, some RugReason.zero_supply, none⟩) ∧
      ((⟨none, none, 0, 5⟩ : MintInfo).supply ≠ 0 → (⟨none, none, 0, 5⟩ : MintInfo).decimals > 18 →
        performRugChecks (some ⟨none, none, 0, 5⟩) none =
          ⟨false, some RugReason.excessive_decimals, none⟩) ∧
      ((⟨none, none, 0, 5⟩ : MintInfo).supply = 0 →
        rugChecks (some ⟨none, none, 0, 5⟩) (some [7]) =
          ⟨false, some RugReason.concentrated_holders, some 100⟩)) :=
  ⟨⟨rfl, by simp⟩, supply_sanity_short_circuit ⟨none, none, 0, 5⟩ none [7] rfl (by simp)⟩

/-! ## Claim C8: fail-closed on fetch failure -/

/-- Claim C8 counterexample: in src/bot.js a failed mint-info fetch yields the
reason `error`, not `check_failed` (the `checkFailed` of the claim, which only
the src/unnamed/part_000 evaluator produces); the verdict is still unsafe. -/
theorem fetch_fail_reason_cx :
    (rugChecks none none).safe = false ∧
    (rugChecks none none).reason = some RugReason.error ∧
    RugReason.error ≠ RugReason.check_failed :=
  ⟨rfl, rfl, by decide⟩

/-- Claim C8 as amended: on any underlying fetch failure (or empty holder
data) both evaluators return an unsafe verdict — never a safe verdict, never a
propagated error — with reason `check_failed` in src/unnamed/part_000 but
`error` in src/bot.js, and with reason `no_token_accounts` / `noTokenAccounts`
when the holder list comes back empty. -/
theorem fetch_failure_fail_closed (mi : MintInfo) (largest : Option (List ℚ))
    (hauth : mi.mintAuthority = none) (hs : mi.supply ≠ 0) (hd : mi.decimals ≤ 18) :
    rugChecks none largest = ⟨false, some RugReason.error, none⟩ ∧
    performRugChecks none largest = ⟨false, some RugReason.check_failed, none⟩ ∧
    rugChecks (some mi) none = ⟨false, some RugReason.error, none⟩ ∧
    performRugChecks (some mi) none = ⟨false, some RugReason.check_failed, none⟩ ∧
    rugChecks (some mi) (some []) = ⟨false, some RugReason.noTokenAccounts, none⟩ ∧
    performRugChecks (some mi) (some []) = ⟨false, some RugReason.no_token_accounts, none⟩ := by
  have hd18 : ¬ mi.decimals > 18 := by omega
  refine ⟨rfl, rfl, ?_, ?_, ?_, ?_⟩ <;> simp [rugChecks, performRugChecks, hauth, hs, hd18]

/-- Witness for the fail-closed theorem at a concrete input. -/
theorem fetch_failure_fail_closed_witness :
    ((⟨none, none, 5, 6⟩ : MintInfo).mintAuthority = none ∧
      (⟨none, none, 5, 6⟩ : MintInfo).supply ≠ 0 ∧
      (⟨none, none, 5, 6⟩ : MintInfo).decimals ≤ 18) ∧
    (rugChecks none none = ⟨false, some RugReason.error, none⟩ ∧
      performRugChecks none none = ⟨false, some RugReason.check_failed, none⟩ ∧
      rugChecks (some ⟨none, none, 5, 6⟩) none = ⟨false, some RugReason.error, none⟩ ∧
      performRugChecks (some ⟨none, none, 5, 6⟩) none =
        ⟨false, some RugReason.check_failed, none⟩ ∧
      rugChecks (some ⟨none, none, 5, 6⟩) (some []) =
        ⟨false, some RugReason.noTokenAccounts, none⟩ ∧
      performRugChecks (some ⟨none, none, 5, 6⟩) (some []) =
        ⟨false, some RugReason.no_token_accounts, none⟩) :=
  ⟨⟨rfl, by norm_num, by norm_num⟩,
    fetch_failure_fail_closed ⟨none, none, 5, 6⟩ none rfl (by norm_num) (by norm_num)⟩

/-! ## Claim C9: pool dedup emits at most once, seen-set only grows -/

/-- Claim C9: for every poolId `x` (non-empty, i.e. truthy), processing any
batch of pool payloads in order emits the events with id `x` exactly once if
`x` is new and appears, never if `x` was already seen — so feeding the same
poolId twice yields exactly one emission — and every member of the seen-set is
still a member after the batch (the seen-set grows monotonically). -/
theorem dedup_emits_at_most_once (idOf : PoolShape → Option String) (x : String)
    (seen : List String) (ps : List PoolShape) (hx : x ≠ "") :
    emitCountFor idOf x seen ps =
      (if x ∈ seen then 0 else if some x ∈ ps.map idOf then 1 else 0) ∧
    ∀ y, y ∈ seen → y ∈ seenAfter idOf seen ps := by
  induction ps generalizing seen with
  | nil =>
    refine ⟨?_, fun y hy => ?_⟩
    · simp [emitCountFor]
    · simpa [seenAfter] using hy
  | cons p ps ih =>
    rcases hidp : idOf p with _ | s
    · refine ⟨?_, fun y hy => ?_⟩
      · simp [emitCountFor, dedupStep, hidp, (ih seen).1]
      · simpa [seenAfter, dedupStep, hidp] using (ih seen).2 y hy
    · by_cases hs : s = ""
      · subst hs
        refine ⟨?_, fun y hy => ?_⟩
        · simp [emitCountFor, dedupStep, hidp, (ih seen).1, hx]
        · simpa [seenAfter, dedupStep, hidp] using (ih seen).2 y hy
      · by_cases hmem : s ∈ seen
        · refine ⟨?_, fun y hy => ?_⟩
          · by_cases hxin : x ∈ seen
            · simp [emitCountFor, dedupStep, hidp, hs, hmem, (ih seen).1, hxin]
            · have hxne : x ≠ s := fun h => hxin (by rw [h]; exact hmem)
              simp [emitCountFor, dedupStep, hidp, hs, hmem, (ih seen).1, hxin, hxne]
          · simpa [seenAfter, dedupStep, hidp, hs, hmem] using (ih seen).2 y hy
        · by_cases hxeq : s = x
          · subst hxeq
            refine ⟨?_, fun y hy => ?_⟩
            · simp [emitCountFor, dedupStep, hidp, hs, hmem, (ih (s :: seen)).1]
            · have := (ih (s :: seen)).2 y (List.mem_cons_of_mem s hy)
              simpa [seenAfter, dedupStep, hidp, hs, hmem] using this
          · refine ⟨?_, fun y hy => ?_⟩
            · have hxne : x ≠ s := fun h => hxeq h.symm
              simp [emitCountFor, dedupStep, hidp, hs, hmem, (ih (s :: seen)).1, hxeq,
                hxne, List.mem_cons]
            · have := (ih (s :: seen)).2 y (List.mem_cons_of_mem s hy)
              simpa [seenAfter, dedupStep, hidp, hs, hmem] using this

/-- A payload whose `id` field is `"p1"`. -/
def poolP1 : PoolShape := ⟨some "p1", none, none, none⟩

/-- Witness for the dedup theorem: feeding the payload with id `"p1"` twice
into the src/bot.js gate starting from an empty seen-set. -/
theorem dedup_emits_at_most_once_witness :
    ("p1" : String) ≠ "" ∧
    (emitCountFor poolIdOfBot "p1" [] [poolP1, poolP1] =
      (if "p1" ∈ ([] : List String) then 0
        else if some "p1" ∈ [poolP1, poolP1].map poolIdOfBot then 1 else 0) ∧
      ∀ y, y ∈ ([] : List String) → y ∈ seenAfter poolIdOfBot [] [poolP1, poolP1]) :=
  ⟨by simp, dedup_emits_at_most_once poolIdOfBot "p1" [] [poolP1, poolP1] (by simp)⟩

example : emitCountFor poolIdOfBot "p1" [] [poolP1, poolP1] = 1 := by
  simp [emitCountFor, dedupStep, poolIdOfBot, poolP1, jsOrS, strTruthy]

example : emitCountFor poolIdOfV2 "p1" [] [poolP1, poolP1] = 1 := by
  simp [emitCountFor, dedupStep, poolIdOfV2, poolP1, jsOrS, strTruthy]

/-! ## Claim C1: failed sells still mutate the position -/

/-- Claim C1 is false of the code and the code contradicts its own design
(`swapSell` carefully returns `false` on every failure path, and the sibling
`swapBuy` result is checked at its call site, but `monitorPosition` discards
`swapSell`'s result): one monitor iteration produces exactly the same state
whether the sell succeeds or fails, so on a failed sell the stage flag is
still set (first concrete input) and on a failed stop-loss sell the position
is still deleted and the loop exits (second concrete input). -/
theorem swap_failure_still_mutates :
    (∀ (sl : ℚ) (pos : WsPosition) (price : ℚ),
      monitorStep sl pos price false = monitorStep sl pos price true) ∧
    monitorStep 20 ⟨1, 100, false, false⟩ 3 false =
      ⟨some ⟨1, 100, false, true⟩, false, none, some (1/2)⟩ ∧
    monitorStep 20 ⟨1, 100, true, true⟩ (1/2) false =
      ⟨none, true, some ExitReason.stop_loss, some 1⟩ := by
  refine ⟨fun sl pos price => rfl, ?_, ?_⟩ <;> norm_num [monitorStep]

/-! ## Claim C2: per-iteration stage priority -/

/-- Claim C2 counterexample: with buy price 1, a first iteration at price 3
(multiplier 3, at or above both cutoffs) fires only the higher 50% stage; but
the very next iteration at price 3 separately fires and flags the lower 25%
stage — the lower stage IS flagged in a later iteration after the higher-stage
sale. -/
theorem lower_stage_fires_later_cx :
    monitorStep 20 ⟨1, 100, false, false⟩ 3 true =
      ⟨some ⟨1, 100, false, true⟩, false, none, some (1/2)⟩ ∧
    monitorStep 20 ⟨1, 100, false, true⟩ 3 true =
      ⟨some ⟨1, 100, true, true⟩, false, none, some (1/4)⟩ := by
  constructor <;> norm_num [monitorStep]

/-- Within one iteration, exit rules are tried in the order 3x-stage,
2x-stage, stop-loss (there is no timeout rule in `monitorPosition`), and the
branch taken is the first whose guard holds. -/
def tpPriorityProp (sl : ℚ) (pos : WsPosition) (price : ℚ) (ok : Bool) : Prop :=
  (price / pos.buy_price ≥ 3 → pos.sold_50 = false →
      monitorStep sl pos price ok =
        ⟨some ⟨pos.buy_price, pos.amount, pos.sold_25, true⟩, false, none, some (1/2)⟩) ∧
  (¬(price / pos.buy_price ≥ 3 ∧ pos.sold_50 = false) →
      price / pos.buy_price ≥ 2 → pos.sold_25 = false →
      monitorStep sl pos price ok =
        ⟨some ⟨pos.buy_price, pos.amount, true, pos.sold_50⟩, false, none, some (1/4)⟩) ∧
  ((monitorStep sl pos price ok).exitReason = some ExitReason.stop_loss →
      ¬(price / pos.buy_price ≥ 3 ∧ pos.sold_50 = false) ∧
      ¬(price / pos.buy_price ≥ 2 ∧ pos.sold_25 = false) ∧
      price / pos.buy_price ≤ 1 - sl / 100)

/-- Claim C2 as amended: in each iteration with an available price exactly one
branch fires, in the priority order higher stage, lower stage, stop-loss (no
timeout rule exists); when the multiplier qualifies for the 3x stage and it is
unflagged, only the 3x branch fires that iteration — but once the higher stage
is flagged, a later iteration with multiplier still ≥ 2 does fire the lower
stage (see the counterexample). -/
theorem tp_priority (sl : ℚ) (pos : WsPosition) (price : ℚ) (ok : Bool)
    (hp : price ≠ 0) : tpPriorityProp sl pos price ok := by
  unfold tpPriorityProp monitorStep
  rw [if_neg hp]
  refine ⟨?_, ?_, ?_⟩
  · intro h3 h50
    rw [if_pos ⟨h3, h50⟩]
  · intro hn1 h2 h25
    rw [if_neg hn1, if_pos ⟨h2, h25⟩]
  · intro hr
    by_cases c1 : price / pos.buy_price ≥ 3 ∧ pos.sold_50 = false
    · rw [if_pos c1] at hr
      simp at hr
    · rw [if_neg c1] at hr
      by_cases c2 : price / pos.buy_price ≥ 2 ∧ pos.sold_25 = false
      · rw [if_pos c2] at hr
        simp at hr
      · rw [if_neg c2] at hr
        by_cases c3 : price / pos.buy_price ≤ 1 - sl / 100
        · exact ⟨c1, c2, c3⟩
        · rw [if_neg c3] at hr
          simp at hr

/-- Witness for the priority theorem at a concrete input. -/
theorem tp_priority_witness :
    ((3 : ℚ) ≠ 0) ∧ tpPriorityProp 20 ⟨1, 100, false, false⟩ 3 true :=
  ⟨by norm_num, tp_priority 20 ⟨1, 100, false, false⟩ 3 true (by norm_num)⟩

/-! ## Claim C4: how the monitor loop ends -/

/-- Claim C4 counterexample: the only sell of 100% of the remaining amount is
the stop-loss sell, and it closes the position with reason `stop_loss`, not
`target_reached`; moreover once both stages are flagged, a high price
(multiplier 5) triggers no action at all, so the remaining amount is never
taken to zero by a take-profit rule. -/
theorem full_sell_is_stop_loss_cx :
    monitorStep 20 ⟨1, 100, false, false⟩ (1/2) true =
      ⟨none, true, some ExitReason.stop_loss, some 1⟩ ∧
    ExitReason.stop_loss ≠ ExitReason.target_reached ∧
    monitorStep 20 ⟨1, 100, true, true⟩ 5 true =
      ⟨some ⟨1, 100, true, true⟩, false, none, none⟩ := by
  refine ⟨?_, by decide, ?_⟩ <;> norm_num [monitorStep]

/-- Claim C4 as amended: the monitor loop breaks exactly when the position is
removed from the registry, that happens only in the stop-loss branch (reason
`stop_loss`, never `target_reached`), and a 100% sell is attempted exactly in
that branch. -/
theorem monitor_break_iff_removed :
    ∀ (sl : ℚ) (pos : WsPosition) (price : ℚ) (ok : Bool),
      ((monitorStep sl pos price ok).pos).isNone = (monitorStep sl pos price ok).broke ∧
      (monitorStep sl pos price ok).exitReason =
        (if (monitorStep sl pos price ok).broke = true then some ExitReason.stop_loss
          else none) ∧
      ((monitorStep sl pos price ok).sellAttempt = some 1 ↔
        (monitorStep sl pos price ok).broke = true) := by
  intro sl pos price ok
  unfold monitorStep
  split_ifs <;> simp_all

/-! ## Claim C3: creating over an existing mint -/

/-- A registry already holding a position for mint `"M"` (bought at price 1,
stage-1 already flagged). -/
def regWithM : String → Option WsPosition :=
  fun y => if y = "M" then some ⟨1, 100, true, false⟩ else none

/-- Claim C3 counterexample: running the buy-and-record tail of
`detectNewPools` for mint `"M"` against a registry that already holds a
position (with a monitor) for `"M"` does not fail: it overwrites the record
with a fresh one and spawns a second monitor task. -/
theorem create_overwrites_cx :
    regWithM "M" = some ⟨1, 100, true, false⟩ ∧
    (handleNewPool (1/10) regWithM "M" true 2).1 "M" = some ⟨2, 1/10/2, false, false⟩ ∧
    (handleNewPool (1/10) regWithM "M" true 2).2 = true ∧
    some (⟨2, 1/10/2, false, false⟩ : WsPosition) ≠ some (⟨1, 100, true, false⟩ : WsPosition) := by
  refine ⟨rfl, ?_, ?_, ?_⟩ <;> norm_num [handleNewPool, mapSet]

/-- Claim C3 as amended: the registry is an object keyed by mint, so there is
at most one record per mint, but recording a position for a mint never fails:
after a successful buy with a positive price the entry for the mint is
(over)written unconditionally, other mints are untouched, and a (possibly
additional) monitor task is spawned. -/
theorem create_overwrites (buyAmountSol : ℚ) (reg : String → Option WsPosition)
    (mint : String) (price : ℚ) (hp : price > 0) :
    (handleNewPool buyAmountSol reg mint true price).1 mint =
      some ⟨price, buyAmountSol / price, false, false⟩ ∧
    (∀ y, y ≠ mint → (handleNewPool buyAmountSol reg mint true price).1 y = reg y) ∧
    (handleNewPool buyAmountSol reg mint true price).2 = true := by
  refine ⟨?_, fun y hy => ?_, ?_⟩
  · simp [handleNewPool, mapSet, hp]
  · simp [handleNewPool, mapSet, hp, hy]
  · simp [handleNewPool, hp]

/-- Witness for the overwrite theorem at a concrete input. -/
theorem create_overwrites_witness :
    ((2 : ℚ) > 0) ∧
    ((handleNewPool (1/10) regWithM "M" true 2).1 "M" =
        some ⟨2, (1/10) / 2, false, false⟩ ∧
      (∀ y, y ≠ "M" → (handleNewPool (1/10) regWithM "M" true 2).1 y = regWithM y) ∧
      (handleNewPool (1/10) regWithM "M" true 2).2 = true) :=
  ⟨by norm_num, create_overwrites (1/10) regWithM "M" 2 (by norm_num)⟩

/-! ## Claim C10: the poll-based bot's sell branch is dead code -/

/-- One tick of the position-checking loop leaves every entry in place and
attempts no sell: `currentPrice` is the constant `null`, so the guard is
always falsy. -/
theorem sellCheckBot_eq (tm : ℚ) (ok : Bool) :
    ∀ entries, sellCheckBot tm ok entries = (entries, 0) := by
  intro entries
  induction entries with
  | nil => rfl
  | cons e rest ih =>
    obtain ⟨mint, pos⟩ := e
    simp [sellCheckBot, qTruthy, ih]

/-- Claim C10: in src/bot.js's monitor loop the current price is the constant
`null`, so the sell branch is unreachable: every tick attempts zero sell swaps
and returns the positions map unchanged, hence any number of ticks leaves a
recorded position in the map for the lifetime of the process. -/
theorem bot_sell_branch_unreachable :
    ∀ (tm : ℚ) (ok : Bool) (entries : List (String × BotPosition)),
      sellCheckBot tm ok entries = (entries, 0) ∧
      ∀ n : ℕ, (fun e => (sellCheckBot tm ok e).1)^[n] entries = entries := by
  intro tm ok entries
  refine ⟨sellCheckBot_eq tm ok entries, ?_⟩
  intro n
  induction n with
  | zero => rfl
  | succ n ih =>
    rw [Function.iterate_succ_apply', ih, sellCheckBot_eq]

end PortalSolana
